/-
Verification of the icon composition and normalization logic of
`Processors/AppIconExtractor.py` (the `IconCompositor` core of the spec).

The Python functions are shallowly embedded as executable Lean definitions:
  * `validate_position` / `coordsFor`  — lines 381-396 and 468-481 of
    `composite_icon` (anchor validation and paste-coordinate arithmetic);
  * `coerce_padding`                   — lines 389-396 (padding validation);
  * `pasteNoMask`, `modeFixed`, `composite_pipeline` — lines 454-488
    (mode-check canvas replacement and the mask-less paste actually
    performed by `composite.paste(fg, coords)`);
  * `select_rep_ico`                   — lines 312-323 / 427-438 (the
    Windows ICO representation-selection chain);
  * `save_pipeline_png`                — lines 324-344 of
    `save_icon_to_destination` (PNG branch followed by the discarded
    `icon.convert("RGBA")` call and the save);
  * `b64encode` / `b64decode` / `is_base64` — lines 174-190, a faithful
    model of Python's `base64.b64encode` / lenient `base64.b64decode`
    (`binascii.a2b_base64` in non-strict mode);
  * `resolve_foreground`               — lines 398-402 (badge resolution);
  * `composite_paste_step`, `fsSave`   — lines 486-492 modelled over an
    explicit image heap and file map, to state frame properties;
  * `runComposites` / `main_composites` — lines 628-659 of `main`
    (sequential composite requests, a raised error aborting the rest).

Images are modelled as total pixel functions `Int → Int → RGBA` together
with their declared size and PIL mode string; machine pixels are plain
naturals (each channel 0..255 in the source).
-/
import Mathlib

namespace AppIconExtractor

/-- One RGBA pixel value, channels as in Pillow (0..255 each). -/
structure RGBA where
  r : Nat
  g : Nat
  b : Nat
  a : Nat
deriving DecidableEq, Repr

/-- An in-memory raster image: declared pixel size, PIL mode string
    (e.g. "RGBA", "RGB", "L"), and a total pixel function (only the
    rectangle `[0,width) × [0,height)` is meaningful). -/
structure Image where
  width : Nat
  height : Nat
  mode : String
  pix : Int → Int → RGBA

/-- Number of channels of a PIL mode string (the modes this code meets). -/
def channels (m : String) : Nat :=
  if m = "RGBA" then 4
  else if m = "RGB" then 3
  else if m = "LA" then 2
  else if m = "L" then 1
  else if m = "P" then 1
  else 0

/-- `Image.copy()`: a new image with identical contents (pure value copy). -/
def Image.copy (i : Image) : Image := i

/-- `Image.convert(mode)`: returns a NEW image in the requested mode; the
    receiver is untouched.  Pixel values are already held as RGBA tuples in
    this model, so only the mode label changes. -/
def Image.convert (i : Image) (m : String) : Image :=
  { i with mode := m }

/-- `Image.resize((w, h))`: new image of the requested size, same mode,
    pixels resampled from the source (nearest-neighbour stand-in for the
    library's resampling; the claims depend only on size and mode). -/
def Image.resize (i : Image) (w h : Nat) : Image :=
  { width := w, height := h, mode := i.mode,
    pix := fun x y =>
      if w = 0 ∨ h = 0 then i.pix x y
      else i.pix (x * i.width / w) (y * i.height / h) }

/-- `Image.new("RGBA", (w, h), color=(r, g, b))`: Pillow fills the missing
    alpha channel of a 3-tuple fill colour with 255 (opaque). -/
def Image.newRGBA (w h : Nat) (r g b : Nat) : Image :=
  { width := w, height := h, mode := "RGBA",
    pix := fun _ _ => ⟨r, g, b, 255⟩ }

/-- The opaque black pixel produced by `Image.new("RGBA", (256,256), (0,0,0))`. -/
def opaqueBlack : RGBA := ⟨0, 0, 0, 255⟩

/-- `dst.paste(src, c)` with NO mask argument (exactly what line 488 of
    `composite_icon` executes): every destination pixel inside the source's
    footprint is overwritten with the source pixel, alpha included. -/
def pasteNoMask (dst src : Image) (c : Int × Int) : Image :=
  { width := dst.width, height := dst.height, mode := dst.mode,
    pix := fun x y =>
      if c.1 ≤ x ∧ x < c.1 + src.width ∧ c.2 ≤ y ∧ y < c.2 + src.height then
        src.pix (x - c.1) (y - c.2)
      else dst.pix x y }

/-- Lines 384-388: `if position not in ["ul", "ur", "br", "bl"]` the input
    is reset to the default `"br"`. -/
def validate_position (position : String) : String :=
  if position ∈ ["ul", "ur", "br", "bl"] then position else "br"

/-- Lines 468-481: the anchor-coordinate computation, `W,H` the background
    size, `w,h` the foreground size, `padding` as used by the code. -/
def coordsFor (position : String) (W H w h padding : Int) : Int × Int :=
  if position = "ul" then (0 + padding, 0 + padding)
  else if position = "ur" then (W - (w + padding), 0 + padding)
  else if position = "bl" then (0 + padding, H - (h + padding))
  else (W - (w + padding), H - (h + padding))

/-- A padding value as it can arrive from the recipe environment: a Python
    `int`, a `float` (modelled by `Rat`), or a string. -/
inductive PadVal where
  | int (n : Int)
  | float (q : Rat)
  | str (s : String)
deriving DecidableEq, Repr

/-- Lines 389-396: `if not isinstance(padding, int) and padding >= 0:
    padding = 10`.  The guard is the literal conjunction of the source
    (no parenthesisation of the intended `not (... and ...)`):
      * an `int` never enters the branch and is kept as supplied;
      * a `float` enters `padding >= 0`; non-negative floats are reset to
        10, negative floats are kept;
      * a `str` makes `padding >= 0` raise `TypeError` (modelled `none`). -/
def coerce_padding : PadVal → Option PadVal
  | .int n => some (.int n)
  | .float q => if 0 ≤ q then some (.int 10) else some (.float q)
  | .str _ => none

/-- Lines 460-464 of `composite_icon`: the preceding `bg.convert("RGBA")`
    discards its result, so `bg.mode` is still the source mode here; when
    that mode is not `"RGBA"` the background is replaced by
    `Image.new("RGBA", (256,256), color=(0,0,0))` with the original pasted
    at `(0, 0)`, then copied. -/
def modeFixed (bg : Image) : Image :=
  if bg.mode = "RGBA" then bg
  else (pasteNoMask (Image.newRGBA 256 256 0 0 0) bg (0, 0)).copy

/-- Lines 468-488 of `composite_icon`, from the (already representation-
    selected) background image to the in-memory composite: validate the
    anchor, compute coordinates against `bg.size` and `fg.size`, then
    `composite = bg.copy(); composite.paste(fg, coords)` — the paste is
    performed WITHOUT a mask argument, as in line 488 of the source. -/
def composite_pipeline (bg fg : Image) (position : String) (padding : Int) : Image :=
  let bg2 := modeFixed bg
  let c := coordsFor (validate_position position)
    (bg2.width : Int) (bg2.height : Int) (fg.width : Int) (fg.height : Int) padding
  pasteNoMask bg2.copy fg c

/-- What the representation-selection chain decides to do with the icon. -/
inductive RepAction where
  | useExact   -- `icon.size = (256, 256)`: select the representation, no resampling
  | resample   -- `icon = icon.resize((256, 256))`: resample the loaded image
deriving DecidableEq, Repr

/-- Lines 312-323 of `save_icon_to_destination` (identically lines 427-438
    of `composite_icon`): the Windows ICO chain tests the available
    representation sizes in the order 1024, 512, 256, with a final
    resample fallback. -/
def select_rep_ico (sizes : List (Nat × Nat)) : RepAction :=
  if (1024, 1024) ∈ sizes then .resample
  else if (512, 512) ∈ sizes then .resample
  else if (256, 256) ∈ sizes then .useExact
  else .resample

/-- Lines 324-336 and 340-344 of `save_icon_to_destination` (Windows PNG
    branch): size-dispatch to 256×256, then `icon.convert("RGBA")` — whose
    result is DISCARDED by the source, exactly as mirrored by the unused
    `let` below — followed by saving `icon` itself. -/
def save_pipeline_png (icon : Image) : Image :=
  let icon :=
    if (icon.width, icon.height) = (1024, 1024) then icon.resize 256 256
    else if (icon.width, icon.height) = (512, 512) then icon.resize 256 256
    else if (icon.width, icon.height) = (256, 256) then icon
    else icon.resize 256 256
  let _ := icon.convert "RGBA"
  icon

/-- The standard base64 alphabet: index 0..63 to ASCII character. -/
def sixToChar (n : Nat) : Char :=
  if n < 26 then Char.ofNat (65 + n)
  else if n < 52 then Char.ofNat (97 + (n - 26))
  else if n < 62 then Char.ofNat (48 + (n - 52))
  else if n = 62 then '+'
  else '/'

/-- The standard base64 alphabet: ASCII character to 6-bit value, `none`
    for every character outside the alphabet. -/
def charToSix (c : Char) : Option Nat :=
  if 65 ≤ c.toNat ∧ c.toNat ≤ 90 then some (c.toNat - 65)
  else if 97 ≤ c.toNat ∧ c.toNat ≤ 122 then some (c.toNat - 97 + 26)
  else if 48 ≤ c.toNat ∧ c.toNat ≤ 57 then some (c.toNat - 48 + 52)
  else if c = '+' then some 62
  else if c = '/' then some 63
  else none

/-- Python's `base64.b64encode`: bytes to canonical base64 characters,
    3-byte groups to 4 characters, trailing groups padded with `=`. -/
def b64encode : List Nat → List Char
  | [] => []
  | [a] =>
      [sixToChar (a / 4), sixToChar (a % 4 * 16), '=', '=']
  | [a, b] =>
      [sixToChar (a / 4), sixToChar (a % 4 * 16 + b / 16),
       sixToChar (b % 16 * 4), '=']
  | a :: b :: c :: rest =>
      sixToChar (a / 4) :: sixToChar (a % 4 * 16 + b / 16) ::
      sixToChar (b % 16 * 4 + c / 64) :: sixToChar (c % 64) :: b64encode rest

/-- The character loop of `binascii.a2b_base64` in non-strict mode (what
    `base64.b64decode(s)` runs): characters outside the alphabet are
    skipped; `=` with at least two data characters in the current quad and
    enough accumulated pads finishes the decode (remaining input ignored),
    other `=` are skipped; a data character resets the pad count and emits
    an output byte at quad positions 1, 2 and 3.  Leftover data characters
    at end of input (quad position not 0) raise `binascii.Error`
    (modelled `none`). -/
def b64decodeLoop : List Char → Nat → Nat → Nat → List Nat → Option (List Nat)
  | [], quadPos, _, _, acc =>
      if quadPos = 0 then some acc.reverse else none
  | c :: rest, quadPos, leftchar, pads, acc =>
      if c = '=' then
        if 2 ≤ quadPos then
          if 4 ≤ quadPos + (pads + 1) then some acc.reverse
          else b64decodeLoop rest quadPos leftchar (pads + 1) acc
        else b64decodeLoop rest quadPos leftchar pads acc
      else
        match charToSix c with
        | none => b64decodeLoop rest quadPos leftchar pads acc
        | some v =>
          match quadPos with
          | 0 => b64decodeLoop rest 1 v 0 acc
          | 1 => b64decodeLoop rest 2 (v % 16) 0 ((leftchar * 4 + v / 16) :: acc)
          | 2 => b64decodeLoop rest 3 (v % 4) 0 ((leftchar * 16 + v / 4) :: acc)
          | _ => b64decodeLoop rest 0 0 0 ((leftchar * 64 + v) :: acc)

/-- Python's `base64.b64decode` on an ASCII byte string: `some bytes` on
    success, `none` when `binascii.Error` is raised. -/
def b64decode (cs : List Char) : Option (List Nat) :=
  b64decodeLoop cs 0 0 0 []

/-- Lines 174-190, `is_base64`: encode the string as ASCII (code points
    0..127; failure caught), decode it as base64 (failure caught), and
    test whether re-encoding the decoded bytes reproduces the original
    byte string exactly; every caught exception yields `False`. -/
def is_base64 (s : String) : Bool :=
  if s.data.all (fun c => c.toNat ≤ 127) then
    match b64decode s.data with
    | some bs => b64encode bs == s.data
    | none => false
  else false

/-- The image source handed to `Image.open` for the foreground: either a
    filesystem path string, or an in-memory byte buffer (`io.BytesIO`). -/
inductive Foreground where
  | path (s : String)
  | bytes (b : List Nat)
deriving DecidableEq, Repr

/-- Lines 398-402 of `composite_icon`:
    `if not os.path.exists(foreground) and self.is_base64(foreground):
         foreground = io.BytesIO(base64.b64decode(foreground))`.
    Every other value reaches `Image.open` unchanged, as a path. -/
def resolve_foreground (pathExists : String → Bool) (fg : String) : Foreground :=
  if !pathExists fg && is_base64 fg then .bytes ((b64decode fg.data).getD [])
  else .path fg

/-- A heap of live image objects, addressed by handle; `next` is the first
    unused handle.  Used to state the frame properties of the paste step
    (a pure model cannot otherwise express "the input image object is not
    mutated in place"). -/
structure Heap where
  next : Nat
  get : Nat → Image

/-- In-place update of the image object at handle `i`. -/
def Heap.set (h : Heap) (i : Nat) (img : Image) : Heap :=
  ⟨h.next, fun j => if j = i then img else h.get j⟩

/-- Allocate a fresh image object, returning the new heap and its handle. -/
def Heap.alloc (h : Heap) (img : Image) : Heap × Nat :=
  (⟨h.next + 1, fun j => if j = h.next then img else h.get j⟩, h.next)

/-- Lines 486-488 of `composite_icon`, as heap operations:
    `composite = bg.copy()` allocates a fresh object holding a copy of the
    background, and `composite.paste(fg, coords)` mutates that fresh
    object in place (mask-less paste).  The handles of `bg` and `fg` are
    untouched. -/
def composite_paste_step (h : Heap) (bgH fgH : Nat) (c : Int × Int) : Heap × Nat :=
  let allocd := h.alloc (h.get bgH).copy
  let h1 := allocd.1
  let compH := allocd.2
  (h1.set compH (pasteNoMask (h1.get compH) (h1.get fgH) c), compH)

/-- A filesystem as a map from path to file contents (decoded image). -/
def FS : Type := String → Option Image

/-- Lines 489-492: `composite.save(output_path, format="png")` writes the
    single path `p` and nothing else. -/
def fsSave (fs : FS) (p : String) (img : Image) : FS :=
  fun q => if q = p then some img else fs q

/-- Lines 628-659 of `main`, abstracted over whether a given output target
    can be written: the requested composite outputs are processed strictly
    in order; a successful one is written (and its env var set), while a
    failing `composite.save` raises `ProcessorError` (lines 489-492) which
    `main` does not catch, aborting all requests after it.  Returns the
    list of written outputs and the failing target, if any. -/
def runComposites (writeOk : String → Bool) : List String → List String × Option String
  | [] => ([], none)
  | r :: rs =>
      if writeOk r then
        let rest := runComposites writeOk rs
        (r :: rest.1, rest.2)
      else ([], some r)

/-- The fixed request order of `main`: the 'install' block (line 628), then
    the 'uninstall' block (line 639), then the 'update' block (line 650). -/
def main_composites (writeOk : String → Bool) (install uninstall update : String) :
    List String × Option String :=
  runComposites writeOk [install, uninstall, update]

/-- Concrete 256×256 opaque RGBA background (constant colour), used to
    evaluate the paste step at an explicit input. -/
def c2Base : Image := ⟨256, 256, "RGBA", fun _ _ => ⟨10, 20, 30, 255⟩⟩

/-- Concrete 1×1 fully transparent RGBA badge. -/
def c2Badge : Image := ⟨1, 1, "RGBA", fun _ _ => ⟨0, 0, 0, 0⟩⟩

/-- Concrete 256×256 grayscale ("L" mode) icon, as loaded from a grayscale
    PNG source. -/
def grayIcon : Image := ⟨256, 256, "L", fun _ _ => ⟨128, 128, 128, 255⟩⟩

/-- A write predicate under which only the install target is unwritable. -/
def c7WriteOk : String → Bool := fun s => !(s == "install.png")

/-- A concrete two-object heap: handle 0 a 2×2 background, handle 1 a 1×1
    badge. -/
def c8Heap : Heap :=
  ⟨2, fun i => if i = 0 then ⟨2, 2, "RGBA", fun _ _ => ⟨1, 2, 3, 255⟩⟩
               else ⟨1, 1, "RGBA", fun _ _ => ⟨9, 9, 9, 255⟩⟩⟩

/-- A concrete non-square grayscale background, larger than 256 in one
    dimension and smaller in the other. -/
def c10Gray : Image := ⟨300, 100, "L", fun _ _ => ⟨7, 7, 7, 255⟩⟩

/-- Helper: the strict round-trip characterization of `is_base64`,
    unfolding the try/except structure of lines 174-190. -/
theorem is_base64_iff (s : String) :
    is_base64 s = true ↔
      (s.data.all (fun c => c.toNat ≤ 127) = true ∧
       ∃ bs, b64decode s.data = some bs ∧ b64encode bs = s.data) := by
  unfold is_base64
  by_cases ha : s.data.all (fun c => c.toNat ≤ 127)
  · simp only [ha, if_true, true_and]
    cases hd : b64decode s.data with
    | none => simp
    | some bs => simp [beq_iff_eq]
  · simp [ha]

/-- C1: for every composite invocation with base size `W × H`, badge size
    `w × h` and padding `p`, the badge's top-left paste coordinate is
    `(p, p)` for anchor `"ul"`, `(W - w - p, p)` for `"ur"`,
    `(p, H - h - p)` for `"bl"`, `(W - w - p, H - h - p)` for `"br"`, and
    any anchor token outside `{ul, ur, bl, br}` yields the `"br"`
    coordinate. -/
theorem anchor_coords_spec (W H w h p : Int) :
    coordsFor (validate_position "ul") W H w h p = (p, p) ∧
    coordsFor (validate_position "ur") W H w h p = (W - w - p, p) ∧
    coordsFor (validate_position "bl") W H w h p = (p, H - h - p) ∧
    coordsFor (validate_position "br") W H w h p = (W - w - p, H - h - p) ∧
    ∀ pos : String, pos ∉ (["ul", "ur", "br", "bl"] : List String) →
      coordsFor (validate_position pos) W H w h p = (W - w - p, H - h - p) := by
  refine ⟨?_, ?_, ?_, ?_, fun pos hpos => ?_⟩
  · simp [coordsFor, validate_position]
  · simp [coordsFor, validate_position, Prod.ext_iff]; omega
  · simp [coordsFor, validate_position, Prod.ext_iff]; omega
  · simp [coordsFor, validate_position, Prod.ext_iff]; omega
  · have hv : validate_position pos = "br" := if_neg hpos
    rw [hv]
    simp [coordsFor, Prod.ext_iff]; omega

/-- C1 witness: an unrecognized anchor token at the sizes of the spec
    scenario lands at the lower-right coordinate `(182, 182)`. -/
theorem anchor_coords_spec_witness :
    coordsFor (validate_position "xyz") 256 256 64 64 10 = (256 - 64 - 10, 256 - 64 - 10) :=
  (anchor_coords_spec 256 256 64 64 10).2.2.2.2 "xyz" (by decide)

/-- C2: evaluation of the paste actually performed by line 488
    (`composite.paste(fg, coords)`, no mask argument) at a concrete input:
    a 256×256 opaque base and a 1×1 fully transparent badge at anchor
    `"br"`, padding 10.  The base pixel at (245, 245), which lies under a
    fully transparent badge pixel, is OVERWRITTEN with the transparent
    badge pixel instead of being left unchanged — contradicting both the
    claim and the comment at lines 483-485 of the source, which asserts
    that the foreground is re-specified as the paste mask. -/
theorem paste_without_mask_eval :
    (composite_pipeline c2Base c2Badge "br" 10).pix 245 245 = ⟨0, 0, 0, 0⟩ ∧
    c2Base.pix 245 245 = ⟨10, 20, 30, 255⟩ ∧
    (⟨0, 0, 0, 0⟩ : RGBA) ≠ ⟨10, 20, 30, 255⟩ := by decide

/-- C3: evaluation of the padding guard of lines 392-396,
    `if not isinstance(padding, int) and padding >= 0`.  A non-negative
    integer is used as supplied, but a NEGATIVE integer is also used as
    supplied instead of being replaced by the default 10 (it never enters
    the guard), a string makes the comparison raise `TypeError` instead of
    being replaced, and a negative float is likewise kept; only
    non-negative non-integers are replaced by 10.  With the kept negative
    padding -5, the `"br"` anchor coordinate becomes (197, 197) instead of
    the 10-padded (182, 182). -/
theorem padding_validation_eval :
    coerce_padding (.int 7) = some (.int 7) ∧
    coerce_padding (.int (-5)) = some (.int (-5)) ∧
    coerce_padding (.int (-5)) ≠ some (.int 10) ∧
    coerce_padding (.float 3) = some (.int 10) ∧
    coerce_padding (.float (-3)) = some (.float (-3)) ∧
    coerce_padding (.str "ten") = none ∧
    coordsFor (validate_position "br") 256 256 64 64 (-5) = (197, 197) := by decide

/-- C4: the PNG save path of `save_icon_to_destination` never changes the
    pixel mode, because the result of `icon.convert("RGBA")` at line 342
    is discarded: for every input the saved mode equals the input mode,
    and in particular a 256×256 grayscale ("L") source is saved with 1
    channel, not the 4 channels required by the NormalizedIcon invariant
    (the size half of the invariant does hold: the output is 256×256). -/
theorem save_convert_discarded :
    (∀ icon : Image, (save_pipeline_png icon).mode = icon.mode) ∧
    (save_pipeline_png grayIcon).mode = "L" ∧
    channels (save_pipeline_png grayIcon).mode = 1 ∧
    (save_pipeline_png grayIcon).width = 256 ∧
    (save_pipeline_png grayIcon).height = 256 ∧
    channels "RGBA" = 4 := by
  refine ⟨fun icon => ?_, by decide⟩
  simp only [save_pipeline_png]
  split_ifs <;> rfl

/-- C5 counterexample: an ICO source exposing BOTH an exact 256×256
    representation and a 1024×1024 one is resampled (the 1024 branch is
    tested first), refuting the claim that an exact canonical-size
    representation is used without resampling even when a larger
    representation is present. -/
theorem exact_rep_not_preferred_counterexample :
    ((256, 256) : Nat × Nat) ∈ [((256, 256) : Nat × Nat), (1024, 1024)] ∧
    select_rep_ico [(256, 256), (1024, 1024)] = .resample ∧
    RepAction.resample ≠ RepAction.useExact := by decide

/-- C5 amended: the ICO representation-selection chain prefers the larger
    standard representations FIRST — if a 1024 or 512 representation
    exists the icon is downsampled to the canonical size; only when
    neither exists is an exact 256 representation used without
    resampling; with none of the three, whatever is available is
    resampled. -/
theorem select_rep_ico_priority (sizes : List (Nat × Nat)) :
    ((1024, 1024) ∈ sizes ∨ (512, 512) ∈ sizes → select_rep_ico sizes = .resample) ∧
    ((1024, 1024) ∉ sizes → (512, 512) ∉ sizes → (256, 256) ∈ sizes →
      select_rep_ico sizes = .useExact) ∧
    ((1024, 1024) ∉ sizes → (512, 512) ∉ sizes → (256, 256) ∉ sizes →
      select_rep_ico sizes = .resample) := by
  refine ⟨fun hh => ?_, fun h1 h2 h3 => ?_, fun h1 h2 h3 => ?_⟩
  · rcases hh with hh | hh
    · simp [select_rep_ico, hh]
    · by_cases h1024 : ((1024, 1024) : Nat × Nat) ∈ sizes <;> simp [select_rep_ico, hh, h1024]
  · simp [select_rep_ico, h1, h2, h3]
  · simp [select_rep_ico, h1, h2, h3]

/-- C5 amended witness: a lone 512 representation is downsampled, a lone
    exact 256 representation is used without resampling. -/
theorem select_rep_ico_priority_witness :
    select_rep_ico [((512, 512) : Nat × Nat)] = .resample ∧
    select_rep_ico [((256, 256) : Nat × Nat)] = .useExact :=
  ⟨(select_rep_ico_priority _).1 (Or.inr (by decide)),
   (select_rep_ico_priority _).2.1 (by decide) (by decide) (by decide)⟩

/-- C6 counterexample: the string "QQ==\n" is valid base64 for the lenient
    decoder the code itself uses (`base64.b64decode` accepts it, result
    byte 65), yet because the strict round-trip test `is_base64` rejects
    it, `composite_icon` leaves it as a (nonexistent) file path for
    `Image.open` instead of treating it as base64 image bytes — so a
    valid base64 badge value IS rejected as an invalid badge source. -/
theorem lenient_base64_rejected_counterexample :
    b64decode "QQ==\n".data = some [65] ∧
    resolve_foreground (fun _ => false) "QQ==\n" = .path "QQ==\n" ∧
    Foreground.path "QQ==\n" ≠ .bytes [65] := by decide

/-- C6 amended: an existing path is always loaded from disk; a
    non-existing value is decoded as base64 image bytes EXACTLY when it
    passes the strict round-trip check `is_base64` (in which case the
    decode itself always succeeds — such a value is never rejected at the
    decode step); every other value, including base64 the lenient decoder
    would accept but whose canonical re-encoding differs (e.g. trailing
    whitespace), is passed to the image loader as a nonexistent path and
    fails there. -/
theorem resolve_foreground_spec (pathExists : String → Bool) (s : String) :
    (pathExists s = true → resolve_foreground pathExists s = .path s) ∧
    (pathExists s = false → is_base64 s = true →
      ∃ bs, b64decode s.data = some bs ∧ resolve_foreground pathExists s = .bytes bs) ∧
    (pathExists s = false → is_base64 s = false →
      resolve_foreground pathExists s = .path s) := by
  refine ⟨fun hp => ?_, fun hp hb => ?_, fun hp hb => ?_⟩
  · simp [resolve_foreground, hp]
  · obtain ⟨-, bs, hd, -⟩ := (is_base64_iff s).mp hb
    exact ⟨bs, hd, by simp [resolve_foreground, hp, hb, hd]⟩
  · simp [resolve_foreground, hp, hb]

/-- C6 amended witness: the canonical base64 string "QQ==", not an
    existing path, is decoded to the byte 65 and used as image bytes. -/
theorem resolve_foreground_spec_witness :
    resolve_foreground (fun _ => false) "QQ==" = .bytes [65] := by
  obtain ⟨bs, hd, hr⟩ :=
    (resolve_foreground_spec (fun _ => false) "QQ==").2.1 rfl (by decide)
  have h65 : b64decode "QQ==".data = some [65] := by decide
  rw [hd] at h65
  injection h65 with heq
  rw [← heq]
  exact hr

/-- C7 counterexample: when the first composite request (install) hits an
    unwritable target, the raised error aborts `main` — the uninstall and
    update requests are NOT performed, so their outputs are missing,
    refuting the claim that the other two requests still produce their
    files whenever exactly one fails. -/
theorem composite_failure_aborts_rest_counterexample :
    c7WriteOk "install.png" = false ∧
    c7WriteOk "uninstall.png" = true ∧
    c7WriteOk "update.png" = true ∧
    main_composites c7WriteOk "install.png" "uninstall.png" "update.png" =
      ([], some "install.png") ∧
    "uninstall.png" ∉ (main_composites c7WriteOk "install.png" "uninstall.png" "update.png").1 ∧
    "update.png" ∉ (main_composites c7WriteOk "install.png" "uninstall.png" "update.png").1 := by
  decide

/-- C7 amended: the composite requests run strictly in the fixed order
    install, uninstall, update; the outputs written are exactly the
    requests before the first failing one (already-written outputs are
    kept — there is no rollback), and in particular when only the LAST
    request fails the other two are performed and keep their files, while
    a failure of the first aborts the remaining two. -/
theorem composites_prefix_until_failure :
    (∀ (wOk : String → Bool) (rs : List String),
      (runComposites wOk rs).1 = rs.takeWhile wOk) ∧
    (∀ (wOk : String → Bool) (a b c : String), wOk a = true → wOk b = true → wOk c = false →
      main_composites wOk a b c = ([a, b], some c)) ∧
    (∀ (wOk : String → Bool) (a b c : String), wOk a = false →
      main_composites wOk a b c = ([], some a)) := by
  refine ⟨fun wOk rs => ?_, fun wOk a b c ha hb hc => ?_, fun wOk a b c ha => ?_⟩
  · induction rs with
    | nil => rfl
    | cons r rs ih =>
      by_cases hw : wOk r <;> simp [runComposites, List.takeWhile_cons, hw, ih]
  · simp [main_composites, runComposites, ha, hb, hc]
  · simp [main_composites, runComposites, ha]

/-- C7 amended witness: with only the last (update) target unwritable, the
    install and uninstall outputs are written and kept. -/
theorem composites_prefix_until_failure_witness :
    main_composites (fun s => !(s == "w3")) "w1" "w2" "w3" = (["w1", "w2"], some "w3") :=
  composites_prefix_until_failure.2.1 _ "w1" "w2" "w3" (by decide) (by decide) (by decide)

/-- C8: the paste step of `composite_icon` (lines 486-492) has no effect
    beyond the single written output: the background and foreground image
    objects on the heap are unchanged, the composite is exactly the
    mask-less paste applied to a fresh COPY of the background, and the
    save touches no filesystem path other than the output target. -/
theorem composite_paste_frame (hp : Heap) (bgH fgH : Nat) (c : Int × Int)
    (fs : FS) (outp : String) (hbg : bgH < hp.next) (hfg : fgH < hp.next) :
    (composite_paste_step hp bgH fgH c).1.get bgH = hp.get bgH ∧
    (composite_paste_step hp bgH fgH c).1.get fgH = hp.get fgH ∧
    (composite_paste_step hp bgH fgH c).1.get (composite_paste_step hp bgH fgH c).2 =
      pasteNoMask (hp.get bgH).copy (hp.get fgH) c ∧
    ∀ p : String, p ≠ outp →
      fsSave fs outp
        ((composite_paste_step hp bgH fgH c).1.get (composite_paste_step hp bgH fgH c).2) p
        = fs p := by
  have hbg' : bgH ≠ hp.next := Nat.ne_of_lt hbg
  have hfg' : fgH ≠ hp.next := Nat.ne_of_lt hfg
  refine ⟨?_, ?_, ?_, fun p hpo => ?_⟩
  · simp [composite_paste_step, Heap.alloc, Heap.set, hbg']
  · simp [composite_paste_step, Heap.alloc, Heap.set, hfg']
  · simp [composite_paste_step, Heap.alloc, Heap.set, hfg']
  · simp [fsSave, hpo]

/-- C8 witness: on a concrete two-object heap, both input image objects
    are unchanged by the paste step. -/
theorem composite_paste_frame_witness :
    (composite_paste_step c8Heap 0 1 (1, 1)).1.get 0 = c8Heap.get 0 ∧
    (composite_paste_step c8Heap 0 1 (1, 1)).1.get 1 = c8Heap.get 1 :=
  ⟨(composite_paste_frame c8Heap 0 1 (1, 1) (fun _ => none) "out.png"
      (by decide) (by decide)).1,
   (composite_paste_frame c8Heap 0 1 (1, 1) (fun _ => none) "out.png"
      (by decide) (by decide)).2.1⟩

/-- C9: `is_base64 s` is true exactly when `s` is ASCII-encodable and
    base64-encoding its base64-decoding reproduces `s` exactly; in
    particular it is true for the empty string, which `composite_icon`
    then accepts as base64 input and decodes to the empty byte string. -/
theorem is_base64_roundtrip_charact :
    (∀ s : String, is_base64 s = true ↔
      (s.data.all (fun c => c.toNat ≤ 127) = true ∧
       ∃ bs, b64decode s.data = some bs ∧ b64encode bs = s.data)) ∧
    is_base64 "" = true ∧
    b64decode "".data = some [] ∧
    resolve_foreground (fun _ => false) "" = .bytes [] :=
  ⟨is_base64_iff, by decide, by decide, by decide⟩

/-- C9 witness: the characterization instantiated at the canonical base64
    string "QQ==", whose decoding is the byte 65 and whose re-encoding is
    itself. -/
theorem is_base64_roundtrip_charact_witness : is_base64 "QQ==" = true :=
  (is_base64_roundtrip_charact.1 "QQ==").mpr ⟨by decide, [65], by decide, by decide⟩

/-- C10: whenever the loaded background is not in RGBA mode at the check
    of line 460 (the preceding `bg.convert("RGBA")` result being
    discarded), the background is replaced by a fresh 256×256 RGBA canvas
    with an opaque black background carrying the original image pasted at
    (0, 0), regardless of the original dimensions — pixels inside the
    original footprint keep their values, all others are opaque black, a
    larger base being cropped and a smaller one padded — and every
    composite built from such a base is exactly 256×256. -/
theorem mode_canvas_replacement (bg : Image) (hm : bg.mode ≠ "RGBA") :
    (modeFixed bg).width = 256 ∧ (modeFixed bg).height = 256 ∧
    (∀ x y : Int,
      (modeFixed bg).pix x y =
        if 0 ≤ x ∧ x < (bg.width : Int) ∧ 0 ≤ y ∧ y < (bg.height : Int) then bg.pix x y
        else opaqueBlack) ∧
    (∀ (fg : Image) (pos : String) (pad : Int),
      (composite_pipeline bg fg pos pad).width = 256 ∧
      (composite_pipeline bg fg pos pad).height = 256) := by
  refine ⟨?_, ?_, fun x y => ?_, fun fg pos pad => ⟨?_, ?_⟩⟩ <;>
    simp [modeFixed, hm, composite_pipeline, pasteNoMask, Image.copy, Image.newRGBA,
      opaqueBlack]

/-- C10 witness: a 300×100 grayscale background is replaced by the 256×256
    canvas. -/
theorem mode_canvas_replacement_witness :
    (modeFixed c10Gray).width = 256 ∧ (modeFixed c10Gray).height = 256 :=
  ⟨(mode_canvas_replacement c10Gray (by decide)).1,
   (mode_canvas_replacement c10Gray (by decide)).2.1⟩

end AppIconExtractor



